import Mathlib

/-!
Verification of `scripts/parse_correlations.py`.

The script is a linear transformation: it loads a JSON document, validates
that it is a non-empty array of objects, converts each object into a
`StaticAddressEntry` literal block of Rust source text, and prints the
aggregate declaration plus a trailing count comment.  Diagnostics go to the
error stream; generated code goes to the output stream.

The shallow embedding below models the decoded JSON document as `JValue`
(what `json.load` returns), the two process streams as lists of printed
lines, and termination as an `Outcome`.  Python exceptions that the script
can raise in the per-entry field extraction are modelled by `PyExc`; the
`except (KeyError, ValueError, TypeError)` clause of the script is modelled
by the `caught` predicate (notably, `AttributeError` is not caught).

Scope notes for the model:
* Unicode-only subtleties of Python's `str.isdigit` and of `int()` /
  `float()` literal parsing (non-ASCII digit characters, underscores,
  exponents, `inf` / `nan`) are outside the model; the inputs exercised by
  the theorems below stay in the ASCII fragment where the model agrees with
  CPython.
* Python floats are modelled as exact rationals; the script performs no
  float arithmetic, only coercion and printing, and every value printed by
  a theorem below has a short exact decimal form on which the model agrees
  with CPython's `str`.
* A traceback printed by the interpreter for an uncaught exception is not
  itemised; the `Outcome.uncaught` constructor records the streams as they
  stand when the exception escapes, together with the exception.
-/

/-- A decoded JSON value, as produced by `json.load`: `null`, booleans,
integers, floats (exact rationals in the model), strings, arrays and
objects.  Object keys are assumed distinct, as in the script's inputs. -/
inductive JValue where
  | jnull
  | jbool (b : Bool)
  | jint (n : Int)
  | jfloat (q : Rat)
  | jstr (s : String)
  | jarr (elems : List JValue)
  | jobj (fields : List (String × JValue))

/-- The Python exceptions the script's per-entry extraction can raise. -/
inductive PyExc where
  | keyError (key : String)
  | valueError (msg : String)
  | typeError (msg : String)
  | attributeError (msg : String)
deriving DecidableEq, Repr

/-- The script's `except (KeyError, ValueError, TypeError)` clause
(line 58): which exceptions the guarded block catches.  `AttributeError`
(raised by calling `.replace` on a non-string) is not in the tuple. -/
def caught : PyExc → Bool
  | .keyError _ => true
  | .valueError _ => true
  | .typeError _ => true
  | .attributeError _ => false

/-- Python `str(e)` for the modelled exceptions: `str` of a `KeyError` is
the `repr` of the key, i.e. the key in single quotes; the others render
their message. -/
def pyExcStr : PyExc → String
  | .keyError k => "\x27" ++ k ++ "\x27"
  | .valueError m => m
  | .typeError m => m
  | .attributeError m => m

/-- The lines printed so far on the two process streams. -/
structure Streams where
  out : List String
  err : List String
deriving DecidableEq, Repr

/-- How a run of the script ends.  `done` is a normal return (process exit
status 0); `exited` is `sys.exit(1)` (exit status 1); `uncaught` is an
uncaught exception escaping the script (CPython prints a traceback to the
error stream, not modelled line by line, and exits with status 1). -/
inductive Outcome where
  | done (s : Streams)
  | exited (s : Streams)
  | uncaught (s : Streams) (e : PyExc)
deriving DecidableEq, Repr

/-- The output-stream lines of an outcome, whichever way the run ended. -/
def outcomeOut : Outcome → List String
  | .done s => s.out
  | .exited s => s.out
  | .uncaught s _ => s.out

/-- The error-stream lines of an outcome. -/
def outcomeErr : Outcome → List String
  | .done s => s.err
  | .exited s => s.err
  | .uncaught s _ => s.err

/-- Whether the run completed normally (exit status 0). -/
def isDone : Outcome → Bool
  | .done _ => true
  | _ => false

/-- Whether an `Except` value is a success. -/
def isOkE {ε α : Type} : Except ε α → Bool
  | .ok _ => true
  | .error _ => false

/-! ## String escaping (`escape_rust_string`, lines 16-24) -/

/-- Python `s.replace(t, r)` for a one-character pattern `t`: every
occurrence of the character is replaced by `r`.  Each `replace` call of
`escape_rust_string` has a one-character pattern, so this captures them
exactly. -/
def pyReplaceChar (t : Char) (r : List Char) : List Char → List Char
  | [] => []
  | c :: rest => (if c = t then r else [c]) ++ pyReplaceChar t r rest

/-- Lines 16-24: escape a string for use in Rust code, by five sequential
single-character `replace` passes, backslash first. -/
def escape_rust_string (s : String) : String :=
  let l := s.data
  let l := pyReplaceChar '\\' ['\\', '\\'] l
  let l := pyReplaceChar '"' ['\\', '"'] l
  let l := pyReplaceChar '\n' ['\\', 'n'] l
  let l := pyReplaceChar '\r' ['\\', 'r'] l
  let l := pyReplaceChar '\t' ['\\', 't'] l
  String.mk l

/-- The per-character effect of the five replacement passes. -/
def escChar (c : Char) : List Char :=
  if c = '\\' then ['\\', '\\']
  else if c = '"' then ['\\', '"']
  else if c = '\n' then ['\\', 'n']
  else if c = '\r' then ['\\', 'r']
  else if c = '\t' then ['\\', 't']
  else [c]

/-- The characters that `escape_rust_string` rewrites. -/
def specialChar (c : Char) : Bool :=
  c = '\\' || c = '"' || c = '\n' || c = '\r' || c = '\t'

/-- Modelled from the spec: the decoding half of the round-trip property.
The target language's (Rust's) lexical rules for quoted string literals,
restricted to the escape sequences the generator emits: a backslash
introduces one of the two-character escapes for backslash, double quote,
newline, carriage return or tab, and every other character stands for
itself.  Unknown escapes and a trailing lone backslash are rejected. -/
def unescChar (c : Char) : Option Char :=
  if c = '\\' then some '\\'
  else if c = '"' then some '"'
  else if c = 'n' then some '\n'
  else if c = 'r' then some '\r'
  else if c = 't' then some '\t'
  else none

/-- Modelled from the spec: decode the body of a quoted literal under the
target language's lexical rules (see `unescChar`). -/
def decodeRustChars : List Char → Option (List Char)
  | [] => some []
  | c :: rest =>
    if c = '\\' then
      match rest with
      | [] => none
      | d :: rest2 =>
        match unescChar d with
        | some u => (decodeRustChars rest2).map (u :: ·)
        | none => none
    else (decodeRustChars rest).map (c :: ·)

/-- Modelled from the spec: string-level wrapper of `decodeRustChars`. -/
def decodeRustString (s : String) : Option String :=
  (decodeRustChars s.data).map String.mk

/-! ## Python coercions and subscripting -/

/-- Python's type name for a value, as it appears in exception messages. -/
def pyTypeName : JValue → String
  | .jnull => "NoneType"
  | .jbool _ => "bool"
  | .jint _ => "int"
  | .jfloat _ => "float"
  | .jstr _ => "str"
  | .jarr _ => "list"
  | .jobj _ => "dict"

/-- Python `entry[key]`: object lookup, `KeyError` when the key is absent,
`TypeError` when the subscripted value is not a mapping from strings. -/
def pySubscript : JValue → String → Except PyExc JValue
  | .jobj fields, k =>
    match fields.lookup k with
    | some v => .ok v
    | none => .error (.keyError k)
  | .jarr _, _ => .error (.typeError "list indices must be integers or slices, not str")
  | .jstr _, _ => .error (.typeError "string indices must be integers, not \x27str\x27")
  | v, _ => .error (.typeError ("\x27" ++ pyTypeName v ++ "\x27 object is not subscriptable"))

/-- Python `entry.get(key, default)`.  The script only reaches `.get` when
`entry` is a dict (a non-dict fails earlier, inside the guarded block); the
non-dict arm is unreachable in the modelled control flow. -/
def pyGet (e : JValue) (k : String) (dflt : JValue) : JValue :=
  match e with
  | .jobj fields => (fields.lookup k).getD dflt
  | _ => dflt

/-- Digits-to-value accumulator for literal parsing. -/
def digitsVal (l : List Char) : Nat :=
  l.foldl (fun n c => n * 10 + (c.toNat - 48)) 0

/-- Python `int(s)` on a string (ASCII fragment): optional surrounding
whitespace, optional sign, then a non-empty run of decimal digits. -/
def parseIntLit (s : String) : Option Int :=
  let l := s.data.dropWhile Char.isWhitespace
  let l := (l.reverse.dropWhile Char.isWhitespace).reverse
  match l with
  | '+' :: r => if r ≠ [] ∧ r.all Char.isDigit then some (digitsVal r) else none
  | '-' :: r => if r ≠ [] ∧ r.all Char.isDigit then some (-(digitsVal r : Int)) else none
  | r => if r ≠ [] ∧ r.all Char.isDigit then some (digitsVal r) else none

/-- Python `float(s)` on a string (ASCII fragment, no exponents): optional
surrounding whitespace, optional sign, digits with at most one decimal
point and at least one digit overall. -/
def parseFloatLit (s : String) : Option Rat :=
  let l := s.data.dropWhile Char.isWhitespace
  let l := (l.reverse.dropWhile Char.isWhitespace).reverse
  let signAndMag : Rat × List Char :=
    match l with
    | '+' :: r => (1, r)
    | '-' :: r => (-1, r)
    | r => (1, r)
  let sign := signAndMag.1
  let m := signAndMag.2
  match m.splitOn '.' with
  | [a] => if a ≠ [] ∧ a.all Char.isDigit then some (sign * digitsVal a) else none
  | [a, b] =>
    if (a ≠ [] ∨ b ≠ []) ∧ a.all Char.isDigit ∧ b.all Char.isDigit then
      some (sign * ((digitsVal a : Rat) + (digitsVal b : Rat) / ((10 : Rat) ^ b.length)))
    else none
  | _ => none

/-- Python `int(v)` on a decoded JSON value: ints pass through, booleans
count as 0/1, floats truncate toward zero, strings parse as integer
literals or raise `ValueError`, everything else raises `TypeError`. -/
def pyIntCoerce : JValue → Except PyExc Int
  | .jint n => .ok n
  | .jbool b => .ok (if b then 1 else 0)
  | .jfloat q => .ok (Int.tdiv q.num q.den)
  | .jstr s =>
    match parseIntLit s with
    | some n => .ok n
    | none => .error (.valueError ("invalid literal for int() with base 10: \x27" ++ s ++ "\x27"))
  | v => .error (.typeError ("int() argument must be a string, a bytes-like object or a real number, not \x27" ++ pyTypeName v ++ "\x27"))

/-- Python `float(v)` on a decoded JSON value. -/
def pyFloatCoerce : JValue → Except PyExc Rat
  | .jint n => .ok n
  | .jbool b => .ok (if b then 1 else 0)
  | .jfloat q => .ok q
  | .jstr s =>
    match parseFloatLit s with
    | some q => .ok q
    | none => .error (.valueError ("could not convert string to float: \x27" ++ s ++ "\x27"))
  | v => .error (.typeError ("float() argument must be a string or a real number, not \x27" ++ pyTypeName v ++ "\x27"))

/-! ## Per-entry field extraction (lines 50-64) -/

/-- The six required fields of an entry, after coercion (string fields are
stored already escaped, as the script's local variables are). -/
structure EntryFields where
  adress : String
  gata : String
  gatunummer : String
  postnummer : Int
  dag : Int
  tid : String
deriving DecidableEq, Repr

/-- A string-typed required field: `escape_rust_string(entry[k])`.  Calling
`.replace` on a non-string raises `AttributeError`, which the script's
`except` tuple does not catch. -/
def getStrField (e : JValue) (k : String) : Except PyExc String :=
  match pySubscript e k with
  | .error x => .error x
  | .ok (.jstr s) => .ok (escape_rust_string s)
  | .ok v => .error (.attributeError ("\x27" ++ pyTypeName v ++ "\x27 object has no attribute \x27replace\x27"))

/-- Lines 52-57: the guarded extraction of the six required fields, in
source order; the first exception wins. -/
def extractRequired (e : JValue) : Except PyExc EntryFields := do
  let adress ← getStrField e "adress"
  let gata ← getStrField e "gata"
  let gatunummer ← getStrField e "gatunummer"
  let pv ← pySubscript e "postnummer"
  let postnummer ← pyIntCoerce pv
  let dv ← pySubscript e "dag"
  let dag ← pyIntCoerce dv
  let tid ← getStrField e "tid"
  return { adress := adress, gata := gata, gatunummer := gatunummer,
           postnummer := postnummer, dag := dag, tid := tid }

/-- Line 63: `escape_rust_string(entry.get("info", "Parkering"))`, outside
the guarded block; a present non-string value raises an uncaught
`AttributeError`. -/
def getInfoE (e : JValue) : Except PyExc String :=
  match pyGet e "info" (.jstr "Parkering") with
  | .jstr s => .ok (escape_rust_string s)
  | v => .error (.attributeError ("\x27" ++ pyTypeName v ++ "\x27 object has no attribute \x27replace\x27"))

/-- Line 64: `float(entry.get("distance", 0.0))`, outside the guarded
block; a coercion failure raises uncaught. -/
def getDistanceE (e : JValue) : Except PyExc Rat :=
  pyFloatCoerce (pyGet e "distance" (.jfloat 0))

/-! ## Formatting -/

/-- Decimal digits of the fractional part `r / d` (long division), with
fuel; Python's `str` never needs more than 17 significant digits for the
exact decimal values this model manipulates. -/
def fracDigits : Nat → Nat → Nat → List Char
  | 0, _, _ => []
  | _ + 1, 0, _ => []
  | fuel + 1, r, d => Char.ofNat (48 + (r * 10) / d) :: fracDigits fuel ((r * 10) % d) d

/-- Python `str` of a float, for exact decimal values in the
non-exponent-notation range: sign, integer part, a decimal point, and the
fractional digits (`"0"` when the value is integral, so `str(0.0) = "0.0"`). -/
def formatPyFloat (q : Rat) : String :=
  let sign := if q < 0 then "-" else ""
  let a := q.num.natAbs
  let ip := a / q.den
  let r := a % q.den
  let frac := if r = 0 then "0" else String.mk (fracDigits 30 r q.den)
  sign ++ toString ip ++ "." ++ frac

/-- Python `str.isdigit` (ASCII fragment): non-empty and all decimal
digits. -/
def pyIsdigit (l : List Char) : Bool :=
  !l.isEmpty && l.all Char.isDigit

/-- Lines 71-76: the `tid` shape check — length exactly 9, `-` at
position 4, positions 0-3 and 5-8 all decimal digits (`tid[:4]` and
`tid[5:]`). -/
def tidFormatOk (tid : String) : Bool :=
  let l := tid.data
  l.length == 9 && l.getD 4 ' ' == '-' && pyIsdigit (l.take 4) && pyIsdigit (l.drop 5)

/-- Line 68: the `dag` range warning line. -/
def dagWarnMsg (i : Nat) (dag : Int) : String :=
  s!"Warning: Entry {i} has invalid dag={dag} (should be 1-31)"

/-- Line 77: the `tid` format warning line. -/
def tidWarnMsg (i : Nat) (tid : String) : String :=
  s!"Warning: Entry {i} has invalid tid format \x27{tid}\x27 (should be HHMM-HHMM)"

/-- Line 59: the fatal per-entry error line; `{e}` is Python `str` of the
caught exception. -/
def entryErrMsg (i : Nat) (exc : PyExc) : String :=
  s!"Error in entry {i}: Missing or invalid field - {pyExcStr exc}"

/-- Lines 79-88: the ten output lines of one `StaticAddressEntry` block,
in source order — string fields quoted, integer fields bare, the float in
decimal notation. -/
def entryBlockLines (adress gata gatunummer : String) (postnummer dag : Int)
    (tid info : String) (distance : Rat) : List String :=
  let d := formatPyFloat distance
  [ "    StaticAddressEntry \x7b",
    s!"        adress: \"{adress}\".to_string(),",
    s!"        gata: \"{gata}\".to_string(),",
    s!"        gatunummer: \"{gatunummer}\".to_string(),",
    s!"        postnummer: {postnummer},",
    s!"        dag: {dag},",
    s!"        tid: \"{tid}\".to_string(),",
    s!"        info: \"{info}\".to_string(),",
    s!"        distance: {d},",
    "    \x7d," ]

/-- Lines 90-92: the closing bracket, the blank line, and the trailing
count comment. -/
def closingLines (total : Nat) : List String :=
  ["];", "", s!"// Generated {total} address entries"]

/-! ## The main loop (lines 39-92) -/

/-- Lines 49-88: the `for i, entry in enumerate(data)` loop body, applied
to the remaining entries, with the lines printed so far.  Within one
iteration: the guarded extraction of the six required fields (a caught
exception prints the per-entry error and `sys.exit(1)`; an uncaught one
escapes), the optional fields outside the guard (failures escape
uncaught), the `dag` and `tid` warnings, then the ten block lines. -/
def processEntries (total : Nat) : Nat → Streams → List JValue → Outcome
  | _, st, [] =>
    .done { out := st.out ++ closingLines total, err := st.err }
  | i, st, entry :: rest =>
    match extractRequired entry with
    | .error exc =>
      if caught exc then
        .exited { out := st.out, err := st.err ++ [entryErrMsg i exc] }
      else
        .uncaught st exc
    | .ok f =>
      match getInfoE entry with
      | .error exc => .uncaught st exc
      | .ok info =>
        match getDistanceE entry with
        | .error exc => .uncaught st exc
        | .ok distance =>
          let dagWarn := if 1 ≤ f.dag ∧ f.dag ≤ 31 then [] else [dagWarnMsg i f.dag]
          let tidWarn := if tidFormatOk f.tid then [] else [tidWarnMsg i f.tid]
          processEntries total (i + 1)
            { out := st.out ++ entryBlockLines f.adress f.gata f.gatunummer
                       f.postnummer f.dag f.tid info distance,
              err := st.err ++ dagWarn ++ tidWarn }
            rest

/-- Lines 39-92 of `parse_json_to_rust`, from the decoded JSON value
onward (the file loading of lines 29-37 is modelled by passing the decoded
value directly): the top-level array and non-emptiness checks, the opening
`vec!` line, the entry loop, and the closing lines. -/
def parse_json_to_rust (data : JValue) : Outcome :=
  match data with
  | .jarr entries =>
    if entries.isEmpty then
      .exited { out := [], err := ["Error: JSON array is empty"] }
    else
      processEntries entries.length 0 { out := ["let entries = vec!["], err := [] } entries
  | _ => .exited { out := [], err := ["Error: JSON must be an array of objects"] }

/-- Lines 96-102: the streams printed by the wrong-argument-count path.
Lines 97 and 99-101 pass `file=sys.stderr`; the bare `print()` of line 98
does not, so its blank line goes to the output stream. -/
def usageStreams : Streams :=
  { out := [""],
    err := [ "Usage: python parse_correlations.py <input.json>",
             "Example:",
             "  cargo run --release correlate -c 20 -a kdtree > correlations.json",
             "  python parse_correlations.py correlations.json > entries.rs" ] }

/-- Lines 95-104: the `__main__` guard.  `argv` includes the program name;
`data` stands for the decoded content of the input file (the file-loading
errors of lines 29-37 are outside the claims checked here). -/
def scriptMain (argv : List String) (data : JValue) : Outcome :=
  if argv.length ≠ 2 then .exited usageStreams
  else parse_json_to_rust data

/-! ## Derived descriptions of the loop's output, used to state theorems -/

/-- Whether an entry passes the whole per-entry extraction (required and
optional fields) without an exception. -/
def entryValid (e : JValue) : Bool :=
  isOkE (extractRequired e) && isOkE (getInfoE e) && isOkE (getDistanceE e)

/-- The block lines one entry contributes to the output stream (empty when
extraction fails, in which case the run aborts there instead). -/
def renderedBlock (e : JValue) : List String :=
  match extractRequired e, getInfoE e, getDistanceE e with
  | .ok f, .ok info, .ok distance =>
    entryBlockLines f.adress f.gata f.gatunummer f.postnummer f.dag f.tid info distance
  | _, _, _ => []

/-- The warning lines one entry at index `i` contributes to the error
stream. -/
def entryWarnings (i : Nat) (e : JValue) : List String :=
  match extractRequired e, getInfoE e, getDistanceE e with
  | .ok f, .ok _, .ok _ =>
    (if 1 ≤ f.dag ∧ f.dag ≤ 31 then [] else [dagWarnMsg i f.dag]) ++
    (if tidFormatOk f.tid then [] else [tidWarnMsg i f.tid])
  | _, _, _ => []

/-- The block lines of a list of entries, in input order. -/
def blocksAll (l : List JValue) : List String :=
  l.flatMap renderedBlock

/-- The warning lines of a list of entries whose first element has index
`i`. -/
def warningsFrom (i : Nat) : List JValue → List String
  | [] => []
  | e :: rest => entryWarnings i e ++ warningsFrom (i + 1) rest

/-- Whether a decoded JSON value is a string. -/
def isStrVal : JValue → Bool
  | .jstr _ => true
  | _ => false

/-! ## Concrete sample inputs used by witnesses and counterexamples -/

/-- A fully valid record. -/
def sampleEntry : JValue :=
  .jobj [("adress", .jstr "Storgatan 1"), ("gata", .jstr "Storgatan"),
         ("gatunummer", .jstr "1"), ("postnummer", .jint 41234),
         ("dag", .jint 3), ("tid", .jstr "0800-1200")]

/-- A second fully valid record. -/
def sampleEntry2 : JValue :=
  .jobj [("adress", .jstr "Kungsgatan 2"), ("gata", .jstr "Kungsgatan"),
         ("gatunummer", .jstr "2"), ("postnummer", .jint 11122),
         ("dag", .jint 15), ("tid", .jstr "0900-1700")]

/-- Valid six required fields, but `info` present and not a string. -/
def infoBadEntry : JValue :=
  .jobj [("adress", .jstr "Storgatan 1"), ("gata", .jstr "Storgatan"),
         ("gatunummer", .jstr "1"), ("postnummer", .jint 41234),
         ("dag", .jint 3), ("tid", .jstr "0800-1200"), ("info", .jint 7)]

/-- A record whose `postnummer` is a string that `int()` rejects. -/
def postnummerBadEntry : JValue :=
  .jobj [("adress", .jstr "A"), ("gata", .jstr "G"), ("gatunummer", .jstr "1"),
         ("postnummer", .jstr "abc"), ("dag", .jint 1), ("tid", .jstr "0800-1200")]

/-- A record whose `adress` is an integer (a non-string in a string field). -/
def adressBadEntry : JValue :=
  .jobj [("adress", .jint 5), ("gata", .jstr "G"), ("gatunummer", .jstr "1"),
         ("postnummer", .jint 1), ("dag", .jint 1), ("tid", .jstr "0800-1200")]

/-- A record with the required field `adress` absent. -/
def adressMissingEntry : JValue :=
  .jobj [("gata", .jstr "G"), ("gatunummer", .jstr "1"),
         ("postnummer", .jint 1), ("dag", .jint 1), ("tid", .jstr "0800-1200")]

/-- A record whose `tid` has the right shape but an out-of-range hour. -/
def tidShapeOkEntry : JValue :=
  .jobj [("adress", .jstr "A"), ("gata", .jstr "G"), ("gatunummer", .jstr "2"),
         ("postnummer", .jint 123), ("dag", .jint 5), ("tid", .jstr "2500-0100")]

/-- A record whose `tid` has the wrong shape. -/
def tidShapeBadEntry : JValue :=
  .jobj [("adress", .jstr "A"), ("gata", .jstr "G"), ("gatunummer", .jstr "2"),
         ("postnummer", .jint 123), ("dag", .jint 5), ("tid", .jstr "9-100")]

/-- A record whose `dag` is out of range. -/
def dagOutOfRangeEntry : JValue :=
  .jobj [("adress", .jstr "A"), ("gata", .jstr "G"), ("gatunummer", .jstr "2"),
         ("postnummer", .jint 123), ("dag", .jint 32), ("tid", .jstr "0800-1200")]

/-- Whether `pat` occurs at the head of `l`. -/
def startsWithSeq : List Char → List Char → Bool
  | [], _ => true
  | _ :: _, [] => false
  | p :: ps, c :: cs => p == c && startsWithSeq ps cs

/-- Whether `pat` occurs contiguously anywhere in `l`; used to state that a
diagnostic message does or does not mention a given word. -/
def containsSeq (pat : List Char) : List Char → Bool
  | [] => startsWithSeq pat []
  | c :: cs => startsWithSeq pat (c :: cs) || containsSeq pat cs

/-! ## Lemmas about the escaping pass -/

theorem pyReplaceChar_eq_flatMap (t : Char) (r : List Char) (l : List Char) :
    pyReplaceChar t r l = l.flatMap (fun c => if c = t then r else [c]) := by
  induction l with
  | nil => rfl
  | cons c rest ih => simp [pyReplaceChar, ih]

theorem escape_rust_string_data (s : String) :
    (escape_rust_string s).data = s.data.flatMap escChar := by
  show (String.mk _).data = _
  simp only [escape_rust_string]
  rw [pyReplaceChar_eq_flatMap, pyReplaceChar_eq_flatMap, pyReplaceChar_eq_flatMap,
    pyReplaceChar_eq_flatMap, pyReplaceChar_eq_flatMap,
    List.flatMap_assoc, List.flatMap_assoc, List.flatMap_assoc, List.flatMap_assoc]
  congr 1
  funext c
  simp only [escChar]
  split_ifs with h1 h2 h3 h4 h5
  · subst_vars; rfl
  · subst_vars; rfl
  · subst_vars; rfl
  · subst_vars; rfl
  · subst_vars; rfl
  · simp [h2, h3, h4, h5]

theorem decodeRustChars_cons_ne (c : Char) (h : ¬c = '\\') (l : List Char) :
    decodeRustChars (c :: l) = (decodeRustChars l).map (c :: ·) := by
  rw [decodeRustChars.eq_def]
  simp [h]

theorem decodeRustChars_flatMap (l : List Char) :
    decodeRustChars (l.flatMap escChar) = some l := by
  induction l with
  | nil => rfl
  | cons c rest ih =>
    rw [List.flatMap_cons]
    by_cases h1 : c = '\\'
    · subst h1; simp [escChar, decodeRustChars, unescChar, ih]
    · by_cases h2 : c = '"'
      · subst h2; simp [escChar, decodeRustChars, unescChar, ih]
      · by_cases h3 : c = '\n'
        · subst h3; simp [escChar, decodeRustChars, unescChar, ih]
        · by_cases h4 : c = '\r'
          · subst h4; simp [escChar, decodeRustChars, unescChar, ih]
          · by_cases h5 : c = '\t'
            · subst h5; simp [escChar, decodeRustChars, unescChar, ih]
            · rw [show escChar c = [c] by simp [escChar, h1, h2, h3, h4, h5],
                List.singleton_append, decodeRustChars_cons_ne c h1, ih]
              rfl

/-- C2: the escaping function rewrites backslash, double quote, newline,
carriage return and tab — in that order, backslash first — each to its
two-character escape sequence (per-character effect `escChar`), and
consequently decoding the emitted literal body under the target language's
lexical rules recovers every input string exactly. -/
theorem escape_rust_string_roundtrip :
    (∀ s : String, (escape_rust_string s).data = s.data.flatMap escChar) ∧
    ∀ s : String, decodeRustString (escape_rust_string s) = some s := by
  refine ⟨escape_rust_string_data, fun s => ?_⟩
  rw [decodeRustString, escape_rust_string_data, decodeRustChars_flatMap]
  rfl

/-! ## Lemmas about the main loop -/

theorem isOkE_iff {ε α : Type} (x : Except ε α) : isOkE x = true ↔ ∃ a, x = .ok a := by
  cases x <;> simp [isOkE]

theorem isOkE_false_iff {ε α : Type} (x : Except ε α) : isOkE x = false ↔ ∃ e, x = .error e := by
  cases x <;> simp [isOkE]

theorem entryValid_parts (e : JValue) (h : entryValid e = true) :
    ∃ f info d, extractRequired e = .ok f ∧ getInfoE e = .ok info ∧ getDistanceE e = .ok d := by
  unfold entryValid at h
  simp only [Bool.and_eq_true, isOkE_iff] at h
  obtain ⟨⟨⟨f, hf⟩, ⟨info, hi⟩⟩, ⟨d, hd⟩⟩ := h
  exact ⟨f, info, d, hf, hi, hd⟩

theorem renderedBlock_eq (e : JValue) (f : EntryFields) (info : String) (d : Rat)
    (hf : extractRequired e = .ok f) (hi : getInfoE e = .ok info) (hd : getDistanceE e = .ok d) :
    renderedBlock e =
      entryBlockLines f.adress f.gata f.gatunummer f.postnummer f.dag f.tid info d := by
  simp [renderedBlock, hf, hi, hd]

theorem entryWarnings_eq (i : Nat) (e : JValue) (f : EntryFields) (info : String) (d : Rat)
    (hf : extractRequired e = .ok f) (hi : getInfoE e = .ok info) (hd : getDistanceE e = .ok d) :
    entryWarnings i e =
      (if 1 ≤ f.dag ∧ f.dag ≤ 31 then [] else [dagWarnMsg i f.dag]) ++
      (if tidFormatOk f.tid then [] else [tidWarnMsg i f.tid]) := by
  simp [entryWarnings, hf, hi, hd]

theorem processEntries_cons_valid (total i : Nat) (st : Streams) (e : JValue)
    (rest : List JValue) (f : EntryFields) (info : String) (d : Rat)
    (hf : extractRequired e = .ok f) (hi : getInfoE e = .ok info)
    (hd : getDistanceE e = .ok d) :
    processEntries total i st (e :: rest) =
      processEntries total (i + 1)
        ⟨st.out ++ renderedBlock e, st.err ++ entryWarnings i e⟩ rest := by
  rw [renderedBlock_eq e f info d hf hi hd, entryWarnings_eq i e f info d hf hi hd]
  simp [processEntries, hf, hi, hd, List.append_assoc]

theorem warningsFrom_append (i : Nat) (a b : List JValue) :
    warningsFrom i (a ++ b) = warningsFrom i a ++ warningsFrom (i + a.length) b := by
  induction a generalizing i with
  | nil => simp [warningsFrom]
  | cons e a ih =>
    simp only [List.cons_append, warningsFrom, List.append_eq, ih (i + 1), List.length_cons,
      List.append_assoc]
    have hidx : i + 1 + a.length = i + (a.length + 1) := by omega
    rw [hidx]

theorem processEntries_append (total : Nat) (pre rest : List JValue) (i : Nat) (st : Streams)
    (h : ∀ e ∈ pre, entryValid e = true) :
    processEntries total i st (pre ++ rest) =
      processEntries total (i + pre.length)
        ⟨st.out ++ blocksAll pre, st.err ++ warningsFrom i pre⟩ rest := by
  induction pre generalizing i st with
  | nil => simp [blocksAll, warningsFrom]
  | cons e pre ih =>
    obtain ⟨f, info, d, hf, hi, hd⟩ := entryValid_parts e (h e (by simp))
    rw [List.cons_append, processEntries_cons_valid total i st e _ f info d hf hi hd,
      ih (i + 1) _ (fun x hx => h x (by simp [hx]))]
    simp only [blocksAll, List.flatMap_cons, warningsFrom, List.append_assoc,
      List.length_cons]
    have hidx : i + 1 + pre.length = i + (pre.length + 1) := by omega
    rw [hidx]

theorem processEntries_all_valid (total i : Nat) (st : Streams) (l : List JValue)
    (h : ∀ e ∈ l, entryValid e = true) :
    processEntries total i st l =
      .done ⟨st.out ++ (blocksAll l ++ closingLines total), st.err ++ warningsFrom i l⟩ := by
  have := processEntries_append total l [] i st h
  rw [List.append_nil] at this
  rw [this]
  simp [processEntries, List.append_assoc]

theorem parse_done_of_valid (entries : List JValue) (hne : entries ≠ [])
    (h : ∀ e ∈ entries, entryValid e = true) :
    parse_json_to_rust (.jarr entries) =
      .done ⟨"let entries = vec![" :: (blocksAll entries ++ closingLines entries.length),
             warningsFrom 0 entries⟩ := by
  match entries, hne with
  | e :: rest, _ =>
    rw [parse_json_to_rust]
    simp only [List.isEmpty_cons, Bool.false_eq_true, if_false]
    rw [processEntries_all_valid _ _ _ _ h]
    rfl

theorem parse_middle (pre : List JValue) (e : JValue) (rest : List JValue)
    (hpre : ∀ x ∈ pre, entryValid x = true) (hrest : ∀ x ∈ rest, entryValid x = true)
    (f : EntryFields) (info : String) (d : Rat)
    (hf : extractRequired e = .ok f) (hi : getInfoE e = .ok info)
    (hd : getDistanceE e = .ok d) :
    parse_json_to_rust (.jarr (pre ++ e :: rest)) =
      .done ⟨"let entries = vec![" ::
               (blocksAll pre ++
                 (entryBlockLines f.adress f.gata f.gatunummer f.postnummer f.dag f.tid info d ++
                   (blocksAll rest ++ closingLines (pre ++ e :: rest).length))),
             warningsFrom 0 pre ++
               ((if 1 ≤ f.dag ∧ f.dag ≤ 31 then [] else [dagWarnMsg pre.length f.dag]) ++
                 ((if tidFormatOk f.tid then [] else [tidWarnMsg pre.length f.tid]) ++
                   warningsFrom (pre.length + 1) rest))⟩ := by
  have hve : entryValid e = true := by simp [entryValid, hf, hi, hd, isOkE]
  have hvall : ∀ x ∈ pre ++ e :: rest, entryValid x = true := by
    intro x hx
    rcases List.mem_append.mp hx with h | h
    · exact hpre x h
    · rcases List.mem_cons.mp h with rfl | h
      · exact hve
      · exact hrest x h
  have hne : pre ++ e :: rest ≠ [] := by simp
  rw [parse_done_of_valid _ hne hvall]
  simp only [blocksAll, List.flatMap_append, List.flatMap_cons,
    renderedBlock_eq e f info d hf hi hd, warningsFrom_append, warningsFrom,
    entryWarnings_eq pre.length e f info d hf hi hd, List.append_assoc, Nat.zero_add]

theorem parse_abort (pre : List JValue) (e : JValue) (rest : List JValue) (exc : PyExc)
    (hpre : ∀ x ∈ pre, entryValid x = true) (hx : extractRequired e = .error exc) :
    parse_json_to_rust (.jarr (pre ++ e :: rest)) =
      if caught exc then
        .exited ⟨"let entries = vec![" :: blocksAll pre,
                 warningsFrom 0 pre ++ [entryErrMsg pre.length exc]⟩
      else
        .uncaught ⟨"let entries = vec![" :: blocksAll pre, warningsFrom 0 pre⟩ exc := by
  have hne : (pre ++ e :: rest).isEmpty = false := by simp
  simp only [parse_json_to_rust, hne, Bool.false_eq_true, if_false]
  rw [processEntries_append _ pre (e :: rest) 0 _ hpre]
  simp [processEntries, hx, Nat.zero_add]

theorem parse_info_error (pre : List JValue) (e : JValue) (rest : List JValue) (exc : PyExc)
    (hpre : ∀ x ∈ pre, entryValid x = true) (f : EntryFields)
    (hf : extractRequired e = .ok f) (hi : getInfoE e = .error exc) :
    parse_json_to_rust (.jarr (pre ++ e :: rest)) =
      .uncaught ⟨"let entries = vec![" :: blocksAll pre, warningsFrom 0 pre⟩ exc := by
  have hne : (pre ++ e :: rest).isEmpty = false := by simp
  simp only [parse_json_to_rust, hne, Bool.false_eq_true, if_false]
  rw [processEntries_append _ pre (e :: rest) 0 _ hpre]
  simp [processEntries, hf, hi, Nat.zero_add]

theorem parse_distance_error (pre : List JValue) (e : JValue) (rest : List JValue) (exc : PyExc)
    (hpre : ∀ x ∈ pre, entryValid x = true) (f : EntryFields) (info : String)
    (hf : extractRequired e = .ok f) (hi : getInfoE e = .ok info)
    (hd : getDistanceE e = .error exc) :
    parse_json_to_rust (.jarr (pre ++ e :: rest)) =
      .uncaught ⟨"let entries = vec![" :: blocksAll pre, warningsFrom 0 pre⟩ exc := by
  have hne : (pre ++ e :: rest).isEmpty = false := by simp
  simp only [parse_json_to_rust, hne, Bool.false_eq_true, if_false]
  rw [processEntries_append _ pre (e :: rest) 0 _ hpre]
  simp [processEntries, hf, hi, hd, Nat.zero_add]

/-! ## The `tid` shape check is insensitive to escaping -/

theorem escChar_eq_self (c : Char) (h : specialChar c = false) : escChar c = [c] := by
  rw [escChar]
  split_ifs
  all_goals first
  | rfl
  | (subst_vars; simp [specialChar] at h)

theorem flatMap_escChar_eq_self (l : List Char) (h : ∀ c ∈ l, specialChar c = false) :
    l.flatMap escChar = l := by
  induction l with
  | nil => rfl
  | cons c rest ih =>
    rw [List.flatMap_cons, escChar_eq_self c (h c (by simp)),
      ih (fun x hx => h x (by simp [hx]))]
    rfl

theorem escape_eq_self (s : String) (h : ∀ c ∈ s.data, specialChar c = false) :
    escape_rust_string s = s := by
  have hd := escape_rust_string_data s
  rw [flatMap_escChar_eq_self s.data h] at hd
  exact String.ext hd

theorem backslash_mem_escape (s : String) (c : Char) (hc : c ∈ s.data)
    (h : specialChar c = true) : '\\' ∈ (escape_rust_string s).data := by
  rw [escape_rust_string_data]
  refine List.mem_flatMap.mpr ⟨c, hc, ?_⟩
  rw [escChar]
  split_ifs <;> simp_all [specialChar]

theorem tid_chars (t : String) (h : tidFormatOk t = true) :
    ∀ c ∈ t.data, c.isDigit = true ∨ c = '-' := by
  unfold tidFormatOk at h
  simp only [Bool.and_eq_true, beq_iff_eq] at h
  obtain ⟨⟨⟨hlen, hget⟩, htake⟩, hdrop⟩ := h
  have htake2 : ∀ c ∈ t.data.take 4, c.isDigit = true := by
    have := (Bool.and_eq_true _ _).mp htake
    exact fun c hc => List.all_eq_true.mp this.2 c hc
  have hdrop2 : ∀ c ∈ t.data.drop 5, c.isDigit = true := by
    have := (Bool.and_eq_true _ _).mp hdrop
    exact fun c hc => List.all_eq_true.mp this.2 c hc
  intro c hc
  have h4 : 4 < t.data.length := by omega
  have hsplit := List.take_append_drop 4 t.data
  rw [← hsplit] at hc
  rcases List.mem_append.mp hc with h1 | h2
  · exact Or.inl (htake2 c h1)
  · rw [List.drop_eq_getElem_cons h4] at h2
    rcases List.mem_cons.mp h2 with rfl | h3
    · right
      have hgd : t.data.getD 4 ' ' = t.data[4] := by
        simp [List.getD_eq_getElem?_getD, List.getElem?_eq_getElem h4]
      rw [hgd] at hget
      exact hget
    · exact Or.inl (hdrop2 c (by simpa using h3))

theorem specialChar_of_digit_dash (c : Char) (h : c.isDigit = true ∨ c = '-') :
    specialChar c = false := by
  rcases h with h | rfl
  · rw [specialChar]
    by_cases h1 : c = '\\'
    · subst h1; exact absurd h (by decide)
    · by_cases h2 : c = '"'
      · subst h2; exact absurd h (by decide)
      · by_cases h3 : c = '\n'
        · subst h3; exact absurd h (by decide)
        · by_cases h4 : c = '\r'
          · subst h4; exact absurd h (by decide)
          · by_cases h5 : c = '\t'
            · subst h5; exact absurd h (by decide)
            · simp [h1, h2, h3, h4, h5]
  · decide

theorem tidFormatOk_escape (s : String) :
    tidFormatOk (escape_rust_string s) = tidFormatOk s := by
  by_cases hs : ∀ c ∈ s.data, specialChar c = false
  · rw [escape_eq_self s hs]
  · push_neg at hs
    obtain ⟨c, hc, hcs⟩ := hs
    have hcs2 : specialChar c = true := eq_true_of_ne_false hcs
    have hbs : '\\' ∈ (escape_rust_string s).data := backslash_mem_escape s c hc hcs2
    have h1 : tidFormatOk (escape_rust_string s) = false := by
      by_contra hx
      have hx2 := eq_true_of_ne_false hx
      rcases tid_chars _ hx2 '\\' hbs with hd | hd
      · exact absurd hd (by decide)
      · exact absurd hd (by decide)
    have h2 : tidFormatOk s = false := by
      by_contra hx
      have hx2 := eq_true_of_ne_false hx
      have := specialChar_of_digit_dash c (tid_chars s hx2 c hc)
      simp_all
    rw [h1, h2]

/-! ## Forward computation of the extraction from its parts -/

theorem getStrField_jstr (e : JValue) (k : String) (raw : String)
    (h : pySubscript e k = .ok (.jstr raw)) :
    getStrField e k = .ok (escape_rust_string raw) := by
  simp [getStrField, h]

theorem extractRequired_eq (e : JValue) (a g gn : String) (pv : JValue) (pn : Int)
    (dv : JValue) (dag : Int) (t : String)
    (ha : getStrField e "adress" = .ok a) (hg : getStrField e "gata" = .ok g)
    (hgn : getStrField e "gatunummer" = .ok gn)
    (hpv : pySubscript e "postnummer" = .ok pv) (hpn : pyIntCoerce pv = .ok pn)
    (hdv : pySubscript e "dag" = .ok dv) (hdag : pyIntCoerce dv = .ok dag)
    (ht : getStrField e "tid" = .ok t) :
    extractRequired e = .ok ⟨a, g, gn, pn, dag, t⟩ := by
  simp [extractRequired, ha, hg, hgn, hpv, hpn, hdv, hdag, ht, Bind.bind, Except.bind,
    Pure.pure, Except.pure]

/-! ## Claim theorems -/

/-- C6: on the empty JSON array the run exits via `sys.exit(1)` with an
error-stream message containing "JSON array is empty" and writes nothing
to the output stream. -/
theorem empty_array_fatal_no_output :
    parse_json_to_rust (.jarr []) = .exited ⟨[], ["Error: JSON array is empty"]⟩ ∧
    containsSeq "JSON array is empty".data "Error: JSON array is empty".data = true := by
  exact ⟨rfl, by decide⟩

/-- C8 (the code deviates from this claim): on a wrong argument count the
non-empty usage lines do go to the error stream, but the bare `print()` of
line 98 sends its blank line to the standard output stream, so the output
stream is not empty and carries a line that is not generated code. -/
theorem usage_path_prints_blank_line_to_stdout :
    scriptMain ["parse_correlations.py"] (.jarr [sampleEntry]) = .exited usageStreams ∧
    usageStreams.out = [""] ∧
    usageStreams.out ≠ [] ∧
    usageStreams.err =
      ["Usage: python parse_correlations.py <input.json>", "Example:",
       "  cargo run --release correlate -c 20 -a kdtree > correlations.json",
       "  python parse_correlations.py correlations.json > entries.rs"] := by
  exact ⟨rfl, rfl, by decide, rfl⟩

/-- C1 (counterexample): a record whose six required fields are all
well-formed but whose `info` field is a non-string makes the run abort
with zero entry blocks and no trailing count comment on the output
stream, so well-formedness of the six required fields alone does not
guarantee the claimed output. -/
theorem six_valid_fields_crash_on_bad_info :
    isOkE (extractRequired infoBadEntry) = true ∧
    parse_json_to_rust (.jarr [infoBadEntry]) =
      .uncaught ⟨["let entries = vec!["], []⟩
        (.attributeError "\x27int\x27 object has no attribute \x27replace\x27") ∧
    (outcomeOut (parse_json_to_rust (.jarr [infoBadEntry]))).count
      "    StaticAddressEntry \x7b" = 0 := by
  exact ⟨rfl, rfl, by decide⟩

/-- C1 (amended: the optional fields, when present, must also be
well-typed): for every non-empty input array all of whose records pass the
whole per-entry extraction, the run completes normally and the output
stream is exactly the opening line, the records' blocks in input array
order — one 10-line block per record, each starting with the
`StaticAddressEntry` header — and the closing bracket, blank line, and
trailing comment reporting the array length. -/
theorem output_blocks_in_order (entries : List JValue) (hne : entries ≠ [])
    (hv : ∀ e ∈ entries, entryValid e = true) :
    parse_json_to_rust (.jarr entries) =
      .done ⟨"let entries = vec![" :: (blocksAll entries ++ closingLines entries.length),
             warningsFrom 0 entries⟩ ∧
    ∀ e ∈ entries, (renderedBlock e).length = 10 ∧
      (renderedBlock e).head? = some "    StaticAddressEntry \x7b" := by
  refine ⟨parse_done_of_valid entries hne hv, fun e he => ?_⟩
  obtain ⟨f, info, d, hf, hi, hd⟩ := entryValid_parts e (hv e he)
  rw [renderedBlock_eq e f info d hf hi hd]
  exact ⟨rfl, rfl⟩

/-- C1 witness: the amended theorem applied to a concrete two-record
array. -/
theorem output_blocks_in_order_witness :
    parse_json_to_rust (.jarr [sampleEntry, sampleEntry2]) =
      .done ⟨"let entries = vec![" ::
               (blocksAll [sampleEntry, sampleEntry2] ++ closingLines 2),
             warningsFrom 0 [sampleEntry, sampleEntry2]⟩ ∧
    ∀ e ∈ [sampleEntry, sampleEntry2], (renderedBlock e).length = 10 ∧
      (renderedBlock e).head? = some "    StaticAddressEntry \x7b" :=
  output_blocks_in_order [sampleEntry, sampleEntry2] (List.cons_ne_nil _ _) (by decide)

/-- C3 (counterexample): a failing required field is not always reported
with the field's name — an `int()` coercion failure on `postnummer` is
caught and reported with the entry index and the offending value but
without the field name, and a non-string value in the string field
`adress` raises an `AttributeError` that the `except` tuple does not
catch, so no descriptive per-entry message is printed at all. -/
theorem required_field_error_lacks_field_name :
    parse_json_to_rust (.jarr [postnummerBadEntry]) =
      .exited ⟨["let entries = vec!["],
        ["Error in entry 0: Missing or invalid field - invalid literal for int() with base 10: \x27abc\x27"]⟩ ∧
    containsSeq "postnummer".data
      "Error in entry 0: Missing or invalid field - invalid literal for int() with base 10: \x27abc\x27".data
      = false ∧
    parse_json_to_rust (.jarr [adressBadEntry]) =
      .uncaught ⟨["let entries = vec!["], []⟩
        (.attributeError "\x27int\x27 object has no attribute \x27replace\x27") := by
  exact ⟨rfl, by decide, rfl⟩

/-- C3 (amended): a record whose required-field extraction raises is fatal
after any valid prefix: when the exception is in the caught tuple
(`KeyError` for an absent field — whose `str` is the quoted field name —
or a `ValueError` / `TypeError` from an `int()` coercion, whose `str`
does not name the field) the run exits via `sys.exit(1)` printing the
per-entry error line with the entry index and the exception text; an
`AttributeError` from a non-string value in a string field escapes
uncaught with no descriptive per-entry message. -/
theorem required_field_failure_fatal (pre : List JValue) (e : JValue) (rest : List JValue)
    (exc : PyExc) (hpre : ∀ x ∈ pre, entryValid x = true)
    (hx : extractRequired e = .error exc) :
    parse_json_to_rust (.jarr (pre ++ e :: rest)) =
      if caught exc then
        .exited ⟨"let entries = vec![" :: blocksAll pre,
                 warningsFrom 0 pre ++ [entryErrMsg pre.length exc]⟩
      else
        .uncaught ⟨"let entries = vec![" :: blocksAll pre, warningsFrom 0 pre⟩ exc :=
  parse_abort pre e rest exc hpre hx

/-- C3 witness: a record at index 1 (after one valid record) with the
required field `adress` absent exits with the per-entry error line naming
index 1 and the field `adress`. -/
theorem required_field_failure_fatal_witness :
    parse_json_to_rust (.jarr [sampleEntry, adressMissingEntry]) =
      .exited ⟨"let entries = vec![" :: blocksAll [sampleEntry],
               ["Error in entry 1: Missing or invalid field - \x27adress\x27"]⟩ := by
  have h := required_field_failure_fatal [sampleEntry] adressMissingEntry []
    (.keyError "adress") (by decide) rfl
  simp only [List.singleton_append] at h
  rw [h]
  decide

/-- C9: when the first record whose required-field extraction fails sits
after a prefix of valid records, the aborting run has already printed the
opening token and the blocks of all prefix records to the output stream,
and prints no closing token, blank line, or count comment — the output
stream is left holding partial, invalid code. -/
theorem partial_output_on_late_failure (pre : List JValue) (e : JValue) (rest : List JValue)
    (exc : PyExc) (hpre : ∀ x ∈ pre, entryValid x = true)
    (hx : extractRequired e = .error exc) :
    outcomeOut (parse_json_to_rust (.jarr (pre ++ e :: rest))) =
      "let entries = vec![" :: blocksAll pre ∧
    isDone (parse_json_to_rust (.jarr (pre ++ e :: rest))) = false := by
  rw [parse_abort pre e rest exc hpre hx]
  by_cases hc : caught exc = true
  · simp [hc, outcomeOut, isDone]
  · simp [hc, outcomeOut, isDone]

/-- C9 witness: with one valid record before the failing one, the output
stream holds the opening token and exactly that record's block. -/
theorem partial_output_on_late_failure_witness :
    outcomeOut (parse_json_to_rust (.jarr ([sampleEntry] ++ adressMissingEntry :: []))) =
      "let entries = vec![" :: blocksAll [sampleEntry] ∧
    isDone (parse_json_to_rust (.jarr ([sampleEntry] ++ adressMissingEntry :: []))) = false :=
  partial_output_on_late_failure [sampleEntry] adressMissingEntry [] (.keyError "adress")
    (by decide) rfl

/-- C10: a record whose six required fields extract successfully but whose
`info` is present and not a string, or whose `distance` is present and not
float-coercible, aborts the run with an uncaught exception (the optional
fields are read outside the guarded block), and the error stream holds
only the earlier records' warnings — no descriptive per-entry error
message is printed. -/
theorem optional_field_failure_uncaught (pre : List JValue) (e : JValue)
    (fs : List (String × JValue)) (rest : List JValue)
    (hpre : ∀ x ∈ pre, entryValid x = true) (he : e = .jobj fs)
    (f : EntryFields) (hf : extractRequired e = .ok f)
    (hbad : (∃ v, fs.lookup "info" = some v ∧ isStrVal v = false) ∨
            (∃ w, fs.lookup "distance" = some w ∧ isOkE (pyFloatCoerce w) = false)) :
    ∃ exc, parse_json_to_rust (.jarr (pre ++ e :: rest)) =
      .uncaught ⟨"let entries = vec![" :: blocksAll pre, warningsFrom 0 pre⟩ exc := by
  cases hih : getInfoE e with
  | error exc => exact ⟨exc, parse_info_error pre e rest exc hpre f hf hih⟩
  | ok info =>
    rcases hbad with ⟨v, hv, hvs⟩ | ⟨w, hw, hws⟩
    · exfalso
      subst he
      cases v with
      | jstr s => simp [isStrVal] at hvs
      | jnull => simp [getInfoE, pyGet, hv] at hih
      | jbool b => simp [getInfoE, pyGet, hv] at hih
      | jint n => simp [getInfoE, pyGet, hv] at hih
      | jfloat q => simp [getInfoE, pyGet, hv] at hih
      | jarr xs => simp [getInfoE, pyGet, hv] at hih
      | jobj fs2 => simp [getInfoE, pyGet, hv] at hih
    · obtain ⟨exc, hexc⟩ := (isOkE_false_iff _).mp hws
      have hd : getDistanceE e = .error exc := by
        subst he
        simp [getDistanceE, pyGet, hw, hexc]
      exact ⟨exc, parse_distance_error pre e rest exc hpre f info hf hih hd⟩

/-- C10 witness: the concrete record with a non-string `info`, at
index 0. -/
theorem optional_field_failure_uncaught_witness :
    ∃ exc, parse_json_to_rust (.jarr ([] ++ infoBadEntry :: [])) =
      .uncaught ⟨"let entries = vec![" :: blocksAll [], warningsFrom 0 []⟩ exc :=
  optional_field_failure_uncaught [] infoBadEntry
    [("adress", .jstr "Storgatan 1"), ("gata", .jstr "Storgatan"),
     ("gatunummer", .jstr "1"), ("postnummer", .jint 41234),
     ("dag", .jint 3), ("tid", .jstr "0800-1200"), ("info", .jint 7)] []
    (by simp) rfl
    ⟨"Storgatan 1", "Storgatan", "1", 41234, 3, "0800-1200"⟩ rfl
    (Or.inl ⟨.jint 7, rfl, rfl⟩)

/-- C5: a processed record at index `pre.length` contributes the warning
line `Warning: Entry <i> has invalid dag=<value> (should be 1-31)` to the
error stream exactly when its coerced `dag` lies outside `[1, 31]`
(captured by the conditional below), processing continues, and the
record's block — carrying its as-given `dag` value — appears in the
output stream either way. -/
theorem dag_warning_iff_out_of_range (pre : List JValue) (e : JValue) (rest : List JValue)
    (hpre : ∀ x ∈ pre, entryValid x = true) (hrest : ∀ x ∈ rest, entryValid x = true)
    (a g gn : String) (pv dv : JValue) (pn dag : Int) (t info : String) (d : Rat)
    (ha : getStrField e "adress" = .ok a) (hg : getStrField e "gata" = .ok g)
    (hgn : getStrField e "gatunummer" = .ok gn)
    (hpv : pySubscript e "postnummer" = .ok pv) (hpn : pyIntCoerce pv = .ok pn)
    (hdv : pySubscript e "dag" = .ok dv) (hdag : pyIntCoerce dv = .ok dag)
    (ht : getStrField e "tid" = .ok t)
    (hi : getInfoE e = .ok info) (hd : getDistanceE e = .ok d) :
    parse_json_to_rust (.jarr (pre ++ e :: rest)) =
      .done ⟨"let entries = vec![" ::
               (blocksAll pre ++
                 (entryBlockLines a g gn pn dag t info d ++
                   (blocksAll rest ++ closingLines (pre ++ e :: rest).length))),
             warningsFrom 0 pre ++
               ((if 1 ≤ dag ∧ dag ≤ 31 then [] else [dagWarnMsg pre.length dag]) ++
                 ((if tidFormatOk t then [] else [tidWarnMsg pre.length t]) ++
                   warningsFrom (pre.length + 1) rest))⟩ := by
  have hf : extractRequired e = .ok ⟨a, g, gn, pn, dag, t⟩ :=
    extractRequired_eq e a g gn pv pn dv dag t ha hg hgn hpv hpn hdv hdag ht
  exact parse_middle pre e rest hpre hrest ⟨a, g, gn, pn, dag, t⟩ info d hf hi hd

/-- C5 witness: the concrete record with `dag = 32` at index 0 — the
warning fires, the run completes, and the block with `dag: 32` is
emitted. -/
theorem dag_warning_iff_out_of_range_witness :
    (¬(1 ≤ (32 : Int) ∧ (32 : Int) ≤ 31)) ∧
    parse_json_to_rust (.jarr ([] ++ dagOutOfRangeEntry :: [])) =
      .done ⟨"let entries = vec![" ::
               (blocksAll [] ++
                 (entryBlockLines "A" "G" "2" 123 32 "0800-1200" "Parkering" 0 ++
                   (blocksAll [] ++ closingLines ([] ++ dagOutOfRangeEntry :: []).length))),
             warningsFrom 0 [] ++
               ((if 1 ≤ (32 : Int) ∧ (32 : Int) ≤ 31 then [] else [dagWarnMsg 0 32]) ++
                 ((if tidFormatOk "0800-1200" then [] else [tidWarnMsg 0 "0800-1200"]) ++
                   warningsFrom (0 + 1) []))⟩ :=
  ⟨by decide,
   dag_warning_iff_out_of_range [] dagOutOfRangeEntry [] (by simp) (by simp)
     "A" "G" "2" (.jint 123) (.jint 32) 123 32 "0800-1200" "Parkering" 0
     rfl rfl rfl rfl rfl rfl rfl rfl rfl rfl⟩

/-- C4: a processed record at index `pre.length` contributes the warning
line `Entry <i> has invalid tid format ... (should be HHMM-HHMM)` to the
error stream exactly when its raw `tid` string fails the shape check
(length 9, `-` at position 4, positions 0-3 and 5-8 decimal digits) —
value ranges are not checked — and the record's block is emitted either
way.  The script applies the check to the escaped `tid`, which by
`tidFormatOk_escape` agrees with checking the raw value. -/
theorem tid_warning_iff_shape_fails (pre : List JValue) (e : JValue) (rest : List JValue)
    (hpre : ∀ x ∈ pre, entryValid x = true) (hrest : ∀ x ∈ rest, entryValid x = true)
    (a g gn : String) (pv dv : JValue) (pn dag : Int) (traw info : String) (d : Rat)
    (ha : getStrField e "adress" = .ok a) (hg : getStrField e "gata" = .ok g)
    (hgn : getStrField e "gatunummer" = .ok gn)
    (hpv : pySubscript e "postnummer" = .ok pv) (hpn : pyIntCoerce pv = .ok pn)
    (hdv : pySubscript e "dag" = .ok dv) (hdag : pyIntCoerce dv = .ok dag)
    (ht : pySubscript e "tid" = .ok (.jstr traw))
    (hi : getInfoE e = .ok info) (hd : getDistanceE e = .ok d) :
    parse_json_to_rust (.jarr (pre ++ e :: rest)) =
      .done ⟨"let entries = vec![" ::
               (blocksAll pre ++
                 (entryBlockLines a g gn pn dag (escape_rust_string traw) info d ++
                   (blocksAll rest ++ closingLines (pre ++ e :: rest).length))),
             warningsFrom 0 pre ++
               ((if 1 ≤ dag ∧ dag ≤ 31 then [] else [dagWarnMsg pre.length dag]) ++
                 ((if tidFormatOk traw then []
                   else [tidWarnMsg pre.length (escape_rust_string traw)]) ++
                   warningsFrom (pre.length + 1) rest))⟩ := by
  have hte : getStrField e "tid" = .ok (escape_rust_string traw) :=
    getStrField_jstr e "tid" traw ht
  have hf : extractRequired e = .ok ⟨a, g, gn, pn, dag, escape_rust_string traw⟩ :=
    extractRequired_eq e a g gn pv pn dv dag _ ha hg hgn hpv hpn hdv hdag hte
  have h := parse_middle pre e rest hpre hrest ⟨a, g, gn, pn, dag, escape_rust_string traw⟩
    info d hf hi hd
  rw [h, tidFormatOk_escape traw]

/-- C4 witness: `tid = "2500-0100"` passes the shape check (shape only,
not value ranges), so no warning is emitted and the record is still
rendered. -/
theorem tid_warning_iff_shape_fails_witness :
    tidFormatOk "2500-0100" = true ∧
    parse_json_to_rust (.jarr ([] ++ tidShapeOkEntry :: [])) =
      .done ⟨"let entries = vec![" ::
               (blocksAll [] ++
                 (entryBlockLines "A" "G" "2" 123 5 (escape_rust_string "2500-0100")
                     "Parkering" 0 ++
                   (blocksAll [] ++ closingLines ([] ++ tidShapeOkEntry :: []).length))),
             warningsFrom 0 [] ++
               ((if 1 ≤ (5 : Int) ∧ (5 : Int) ≤ 31 then [] else [dagWarnMsg 0 5]) ++
                 ((if tidFormatOk "2500-0100" then []
                   else [tidWarnMsg 0 (escape_rust_string "2500-0100")]) ++
                   warningsFrom (0 + 1) []))⟩ :=
  ⟨by decide,
   tid_warning_iff_shape_fails [] tidShapeOkEntry [] (by simp) (by simp)
     "A" "G" "2" (.jint 123) (.jint 5) 123 5 "2500-0100" "Parkering" 0
     rfl rfl rfl rfl rfl rfl rfl rfl rfl rfl⟩

/-- C7: a processed record's block declares the eight fields in the fixed
order adress, gata, gatunummer, postnummer, dag, tid, info, distance —
string fields quoted (holding the escaped values), integer fields as bare
numerals, the float in decimal notation; an absent `info` is emitted as
"Parkering" and an absent `distance` as 0.0. -/
theorem entry_block_fields_and_defaults (e : JValue) (fs : List (String × JValue))
    (he : e = .jobj fs)
    (a g gn : String) (pv dv : JValue) (pn dag : Int) (t info : String) (d : Rat)
    (ha : getStrField e "adress" = .ok a) (hg : getStrField e "gata" = .ok g)
    (hgn : getStrField e "gatunummer" = .ok gn)
    (hpv : pySubscript e "postnummer" = .ok pv) (hpn : pyIntCoerce pv = .ok pn)
    (hdv : pySubscript e "dag" = .ok dv) (hdag : pyIntCoerce dv = .ok dag)
    (ht : getStrField e "tid" = .ok t)
    (hi : getInfoE e = .ok info) (hd : getDistanceE e = .ok d) :
    parse_json_to_rust (.jarr [e]) =
      .done ⟨["let entries = vec![",
              "    StaticAddressEntry \x7b",
              s!"        adress: \"{a}\".to_string(),",
              s!"        gata: \"{g}\".to_string(),",
              s!"        gatunummer: \"{gn}\".to_string(),",
              s!"        postnummer: {pn},",
              s!"        dag: {dag},",
              s!"        tid: \"{t}\".to_string(),",
              s!"        info: \"{info}\".to_string(),",
              s!"        distance: {formatPyFloat d},",
              "    \x7d,",
              "];", "", "// Generated 1 address entries"],
             (if 1 ≤ dag ∧ dag ≤ 31 then [] else [dagWarnMsg 0 dag]) ++
               (if tidFormatOk t then [] else [tidWarnMsg 0 t])⟩ ∧
    (fs.lookup "info" = none → info = "Parkering") ∧
    (fs.lookup "distance" = none → formatPyFloat d = "0.0") := by
  have hf : extractRequired e = .ok ⟨a, g, gn, pn, dag, t⟩ :=
    extractRequired_eq e a g gn pv pn dv dag t ha hg hgn hpv hpn hdv hdag ht
  have h : parse_json_to_rust (.jarr [e]) = _ :=
    parse_middle [] e [] (by simp) (by simp) ⟨a, g, gn, pn, dag, t⟩ info d hf hi hd
  refine ⟨?_, ?_, ?_⟩
  · rw [h]
    simp only [blocksAll, List.flatMap_nil, warningsFrom, List.append_nil, List.nil_append,
      List.length_cons, List.length_nil, entryBlockLines, closingLines]
    rfl
  · intro hnone
    subst he
    have hp : getInfoE (.jobj fs) = .ok (escape_rust_string "Parkering") := by
      simp [getInfoE, pyGet, hnone]
    have h2 := Except.ok.inj (hp.symm.trans hi)
    rw [← h2]
    rfl
  · intro hnone
    subst he
    have hp : getDistanceE (.jobj fs) = .ok 0 := by
      simp [getDistanceE, pyGet, hnone, pyFloatCoerce]
    have h2 := Except.ok.inj (hp.symm.trans hd)
    rw [← h2]
    rfl

/-- C7 witness: the valid sample record — which has neither `info` nor
`distance` — is rendered with the defaults "Parkering" and 0.0. -/
theorem entry_block_fields_and_defaults_witness :
    parse_json_to_rust (.jarr [sampleEntry]) =
      .done ⟨["let entries = vec![",
              "    StaticAddressEntry \x7b",
              s!"        adress: \"Storgatan 1\".to_string(),",
              s!"        gata: \"Storgatan\".to_string(),",
              s!"        gatunummer: \"1\".to_string(),",
              s!"        postnummer: {(41234 : Int)},",
              s!"        dag: {(3 : Int)},",
              s!"        tid: \"0800-1200\".to_string(),",
              s!"        info: \"Parkering\".to_string(),",
              s!"        distance: {formatPyFloat 0},",
              "    \x7d,",
              "];", "", "// Generated 1 address entries"],
             (if 1 ≤ (3 : Int) ∧ (3 : Int) ≤ 31 then [] else [dagWarnMsg 0 3]) ++
               (if tidFormatOk "0800-1200" then [] else [tidWarnMsg 0 "0800-1200"])⟩ ∧
    ("Parkering" : String) = "Parkering" ∧
    formatPyFloat 0 = "0.0" := by
  have h := entry_block_fields_and_defaults sampleEntry
    [("adress", .jstr "Storgatan 1"), ("gata", .jstr "Storgatan"),
     ("gatunummer", .jstr "1"), ("postnummer", .jint 41234),
     ("dag", .jint 3), ("tid", .jstr "0800-1200")] rfl
    "Storgatan 1" "Storgatan" "1" (.jint 41234) (.jint 3) 41234 3 "0800-1200" "Parkering" 0
    rfl rfl rfl rfl rfl rfl rfl rfl rfl rfl
  exact ⟨h.1, h.2.1 rfl, h.2.2 rfl⟩
